import Mathlib

/-!
Verification of the transactional query-execution core specified for the
neoflix snippets (src/note.py).  The snippet file only calls the client
library, so the Session / Transaction / Result / Path semantics are modelled
from the specification; the snippet-level functions (get_actors,
get_actors_single, get_actors_values, ...) are embedded from the source.
-/

/-- Modelled from the spec: the Value tagged union (§3) restricted to the
scalar and list cases the claims exercise (null, boolean, integer, string,
list). -/
inductive Value where
  | null : Value
  | bool (b : Bool) : Value
  | int (n : Int) : Value
  | str (s : String) : Value
  | list (vs : List Value) : Value

/-- Modelled from the spec: a Record is a mapping from field name to Value,
order = query RETURN order (§3). -/
def Record := List (String × Value)

/-- Lookup of a field in a Record, as in Python `record[key]` but total:
returns none when the key is absent. -/
def Record.get (r : Record) (k : String) : Option Value :=
  match r with
  | [] => none
  | (k2, v) :: rest => if k2 = k then some v else Record.get rest k

/-- Lookup with a default, as in `record.get(key, default)`. -/
def Record.getD (r : Record) (k : String) (d : Value) : Value :=
  (r.get k).getD d

/-- Modelled from the spec: mutation counters of a ResultSummary (§6). -/
structure Counters where
  nodes_created : Nat
  nodes_deleted : Nat
  relationships_created : Nat
  relationships_deleted : Nat
  properties_set : Nat
deriving DecidableEq

/-- Modelled from the spec: ResultSummary fields (§6). -/
structure ResultSummary where
  result_available_after : Nat
  result_consumed_after : Nat
  counters : Counters
deriving DecidableEq

/-- Modelled from the spec: errors raised by Result operations (§7). -/
inductive ResError where
  | resultError : ResError
  | resultConsumedError : ResError
deriving DecidableEq

/-- Modelled from the spec: a Result owns an internal buffer of
not-yet-yielded Records plus its summary metadata; `consumed` records whether
a terminal operation has drained the stream (§3, §4.5). -/
structure Result where
  keys : List String
  buffer : List Record
  summary : ResultSummary
  consumed : Bool

/-- Modelled from the spec: `peek` returns the next record (or null) without
advancing the cursor; fails with ResultConsumedError after a terminal
operation (§4.5). -/
def Result.peek (s : Result) : Except ResError (Option Record × Result) :=
  if s.consumed then .error .resultConsumedError
  else .ok (s.buffer.head?, s)

/-- Modelled from the spec: iteration produces the remaining records, a
single pass that drains the stream; fails with ResultConsumedError after a
terminal operation (§4.5). -/
def Result.iterate (s : Result) : Except ResError (List Record × Result) :=
  if s.consumed then .error .resultConsumedError
  else .ok (s.buffer, { s with buffer := [], consumed := true })

/-- Modelled from the spec: `single` fails with ResultError unless the stream
contains exactly one record (§4.5). -/
def Result.single (s : Result) : Except ResError (Record × Result) :=
  if s.consumed then .error .resultConsumedError
  else
    match s.buffer with
    | [r] => .ok (r, { s with buffer := [], consumed := true })
    | _ => .error .resultError

/-- Modelled from the spec: `value(key, default)` projects one field from
each remaining record, consuming the stream; a missing key yields the
default (§4.5). -/
def Result.value (s : Result) (k : String) (d : Value) :
    Except ResError (List Value × Result) :=
  if s.consumed then .error .resultConsumedError
  else .ok (s.buffer.map (fun r => r.getD k d),
            { s with buffer := [], consumed := true })

/-- Modelled from the spec: `values(*keys)` projects several fields from each
remaining record, consuming the stream; each row is a Python list (§4.5). -/
def Result.values (s : Result) (ks : List String) :
    Except ResError (List Value × Result) :=
  if s.consumed then .error .resultConsumedError
  else .ok (s.buffer.map (fun r => Value.list (ks.map (fun k => r.getD k Value.null))),
            { s with buffer := [], consumed := true })

/-- Modelled from the spec: `consume` discards any unread records and returns
the timing/counter metadata (§4.5). -/
def Result.consume (s : Result) : ResultSummary × Result :=
  (s.summary, { s with buffer := [], consumed := true })

/-- Modelled from the spec: the Transaction state machine
OPEN -> (COMMITTED | ROLLED_BACK | FAILED) (§4.3). -/
inductive TxState where
  | opened : TxState
  | committed : TxState
  | rolledBack : TxState
  | failed : TxState
deriving DecidableEq

/-- A state is terminal when it is no longer OPEN (§4.3). -/
def TxState.isTerminal : TxState → Bool
  | .opened => false
  | _ => true

/-- Modelled from the spec: a server-reported error together with the
failure-classification result of the pluggable classifier
(error -> transient or fatal, §4.4, §9). -/
structure DbError where
  name : String
  transient : Bool
deriving DecidableEq

/-- Modelled from the spec: errors raised by Transaction operations (§7). -/
inductive TxOpError where
  | transactionClosedError : TxOpError
  | transactionError (e : DbError) : TxOpError
deriving DecidableEq

/-- Modelled from the spec: a Transaction; the queries and Results it owns
are carried by the operations, only the state machine lives here (§3,
§4.3). -/
structure Transaction where
  state : TxState
deriving DecidableEq

/-- Modelled from the spec: `run(query, parameters)` while OPEN sends the
query and returns a Result built from the server response (keys, records,
summary); calling `run` when not OPEN fails with TransactionClosedError
(§4.3).  The network decode of the response is an external collaborator, so
the response data are parameters. -/
def Transaction.run (t : Transaction) (ks : List String) (recs : List Record)
    (summ : ResultSummary) : Except TxOpError Result :=
  match t.state with
  | .opened => .ok { keys := ks, buffer := recs, summary := summ, consumed := false }
  | _ => .error .transactionClosedError

/-- Modelled from the spec: `commit` transitions OPEN to COMMITTED, or to
FAILED with a TransactionError when the server reports a conflict; on an
already-terminal Transaction it fails with TransactionClosedError (§4.3).
`serverErr` is the externally-supplied server verdict on this commit. -/
def Transaction.commit (t : Transaction) (serverErr : Option DbError) :
    Transaction × Option TxOpError :=
  match t.state with
  | .opened =>
    match serverErr with
    | none => ({ state := .committed }, none)
    | some e => ({ state := .failed }, some (.transactionError e))
  | _ => (t, some .transactionClosedError)

/-- Modelled from the spec: `rollback` transitions OPEN to ROLLED_BACK; on an
already-terminal Transaction it fails with TransactionClosedError (§4.3). -/
def Transaction.rollback (t : Transaction) : Transaction × Option TxOpError :=
  match t.state with
  | .opened => ({ state := .rolledBack }, none)
  | _ => (t, some .transactionClosedError)

/-- Modelled from the spec: the outcome of a managed execution: the
unit-of-work's value, a re-raised non-transient failure, or
RetryExhaustedError wrapping the last underlying failure; each outcome
reports how many attempts were made (§4.4, §7). -/
inductive ExecOutcome (α : Type) where
  | ok (v : α) (attempts : Nat) : ExecOutcome α
  | raised (e : DbError) (attempts : Nat) : ExecOutcome α
  | retryExhausted (last : DbError) (attempts : Nat) : ExecOutcome α
deriving DecidableEq

/-- Modelled from the spec: one attempt of the managed protocol (§4.4
steps 2-5): begin a fresh Transaction, invoke the unit of work (`uow k` is
the outcome of its k-th invocation), on success attempt commit (`commitErr
k` is the server verdict), on failure of the unit of work roll the open
Transaction back.  Returns the final state of this attempt's Transaction and
the attempt's outcome. -/
def attemptTx {α : Type} (uow : Nat → Except DbError α)
    (commitErr : Nat → Option DbError) (k : Nat) :
    TxState × Except DbError α :=
  let tx : Transaction := { state := .opened }
  match uow k with
  | .error e => ((tx.rollback).1.state, .error e)
  | .ok v =>
    match commitErr k with
    | none => ((tx.commit none).1.state, .ok v)
    | some e => ((tx.commit (some e)).1.state, .error e)

/-- Modelled from the spec: the retry loop of managed execution (§4.4):
retry on errors classified transient up to the bounded budget `fuel`,
re-raise anything else unchanged; exceeding the budget yields
RetryExhaustedError wrapping the last failure.  `k` is the index of the
current attempt; the returned list holds the final Transaction state of each
attempt, in order. -/
def managedRun {α : Type} (uow : Nat → Except DbError α)
    (commitErr : Nat → Option DbError) (fuel k : Nat) :
    List TxState × ExecOutcome α :=
  match attemptTx uow commitErr k, fuel with
    | (st, .ok v), _ => ([st], .ok v (k + 1))
    | (st, .error e), 0 =>
      if e.transient then ([st], .retryExhausted e (k + 1))
      else ([st], .raised e (k + 1))
    | (st, .error e), fuel' + 1 =>
      if e.transient then
        let rest := managedRun uow commitErr fuel' (k + 1)
        (st :: rest.1, rest.2)
      else ([st], .raised e (k + 1))

/-- Modelled from the spec: `execute_write(unit_of_work)` runs the managed
protocol with a bounded retry budget, starting at attempt 0 (§4.4). -/
def execute_write {α : Type} (budget : Nat) (uow : Nat → Except DbError α)
    (commitErr : Nat → Option DbError) : List TxState × ExecOutcome α :=
  managedRun uow commitErr budget 0

/-- Modelled from the spec: `execute_read` follows the same managed retry
protocol as `execute_write`; only the routing tag differs, which is an
external collaborator (§4.4 step 1). -/
def execute_read {α : Type} (budget : Nat) (uow : Nat → Except DbError α)
    (commitErr : Nat → Option DbError) : List TxState × ExecOutcome α :=
  managedRun uow commitErr budget 0

/-- Modelled from the spec: a Node: identity, labels, property mapping
(§3).  Neo4j property values are scalars/lists, so `Value` suffices. -/
structure NodeT where
  id : Int
  labels : List String
  props : List (String × Value)

/-- Modelled from the spec: a Relationship: identity, type, start-node and
end-node references by identity, property mapping (§3). -/
structure RelT where
  id : Int
  rtype : String
  start_node : Int
  end_node : Int
  props : List (String × Value)

/-- Modelled from the spec: relationship `r` connects nodes `a` and `b`
when one of its endpoints equals `a` and the other equals `b` (§3). -/
def relConnects (r : RelT) (a b : NodeT) : Prop :=
  (r.start_node = a.id ∧ r.end_node = b.id) ∨
  (r.start_node = b.id ∧ r.end_node = a.id)

instance (r : RelT) (a b : NodeT) : Decidable (relConnects r a b) := by
  unfold relConnects; infer_instance

/-- Modelled from the spec: a GraphPath is an alternating sequence of Node and
Relationship forming a connected walk (§3); it is indexed by its start node
and each step carries the connectedness of its segment, since construction
is only performed by the deserialization layer, which only produces
connected walks. -/
inductive GraphPath : NodeT → Type where
  | point (n : NodeT) : GraphPath n
  | step (a : NodeT) (r : RelT) {b : NodeT} (h : relConnects r a b)
      (rest : GraphPath b) : GraphPath a

/-- The ordered node sequence of a GraphPath. -/
def GraphPath.nodes {a : NodeT} : GraphPath a → List NodeT
  | .point n => [n]
  | .step a _ _ rest => a :: rest.nodes

/-- The ordered relationship sequence of a GraphPath (`path.relationships`). -/
def GraphPath.relationships {a : NodeT} : GraphPath a → List RelT
  | .point _ => []
  | .step _ r _ rest => r :: rest.relationships

/-- Modelled from the spec: `len(path)` = relationship count (§3). -/
def GraphPath.length {a : NodeT} (p : GraphPath a) : Nat :=
  p.relationships.length

/-- A default Node used only as the out-of-range value of `List.getD`. -/
def defNode : NodeT := { id := 0, labels := [], props := [] }

/-- A default Relationship used only as the out-of-range value of
`List.getD`. -/
def defRel : RelT := { id := 0, rtype := "", start_node := 0, end_node := 0, props := [] }

/-- Embedded from src/note.py lines 88-95: `get_actors` iterates the Result
of its query and returns the list of the "p" value of every record. -/
def get_actors (result : Result) : Except ResError (List Value × Result) :=
  match result.iterate with
  | .error e => .error e
  | .ok (recs, s) => .ok (recs.map (fun r => r.getD "p" Value.null), s)

/-- Embedded from src/note.py lines 117-124: `get_actors_single` returns the
first record via `result.single()`. -/
def get_actors_single (result : Result) : Except ResError (Record × Result) :=
  result.single

/-- Embedded from src/note.py lines 127-135: the FIRST definition of
`get_actors_values`, which extracts a single value per record with
`result.value("name", False)`. -/
def get_actors_values_first (result : Result) : Except ResError (List Value × Result) :=
  result.value "name" (Value.bool false)

/-- Embedded from src/note.py lines 138-145: the SECOND definition of
`get_actors_values`, which extracts three values per record with
`result.values("name", "title", "roles")`. -/
def get_actors_values_second (result : Result) : Except ResError (List Value × Result) :=
  result.values ["name", "title", "roles"]

/-- Embedded from src/note.py: in Python the later `def get_actors_values`
shadows the earlier one, so the name is bound to the second definition. -/
def get_actors_values (result : Result) : Except ResError (List Value × Result) :=
  get_actors_values_second result

/-- A concrete one-record Result used to separate the two shadowed
definitions of `get_actors_values`. -/
def sampleActorsResult : Result :=
  { keys := ["name", "title", "roles"]
    buffer := [[("name", Value.str "Tom Hanks"),
                ("title", Value.str "The Green Mile"),
                ("roles", Value.list [Value.str "Paul Edgecomb"])]]
    summary := { result_available_after := 1, result_consumed_after := 1,
                 counters := { nodes_created := 0, nodes_deleted := 0,
                               relationships_created := 0,
                               relationships_deleted := 0,
                               properties_set := 0 } }
    consumed := false }

/-- An all-zero summary for sample Results. -/
def emptySummary : ResultSummary :=
  { result_available_after := 1, result_consumed_after := 2,
    counters := { nodes_created := 0, nodes_deleted := 0,
                  relationships_created := 0, relationships_deleted := 0,
                  properties_set := 0 } }

/-- A concrete Result with zero records. -/
def emptyResult : Result :=
  { keys := ["p"], buffer := [], summary := emptySummary, consumed := false }

/-- A concrete Record, as yielded by the get_actors query. -/
def tomHanksRecord : Record := [("p", Value.str "Tom Hanks")]

/-- A second concrete Record. -/
def duncanRecord : Record := [("p", Value.str "Michael Clarke Duncan")]

/-- A concrete Result with exactly one record. -/
def oneRecordResult : Result :=
  { keys := ["p"], buffer := [tomHanksRecord], summary := emptySummary,
    consumed := false }

/-- A concrete Result with two records, as for the actors of one movie. -/
def greenMileResult : Result :=
  { keys := ["p"], buffer := [tomHanksRecord, duncanRecord],
    summary := emptySummary, consumed := false }

/-- A concrete unit of work that fails with a transient deadlock on its
first two invocations and succeeds on the third. -/
def flakyUow : Nat → Except DbError Nat :=
  fun k => if k < 2 then .error { name := "deadlock", transient := true } else .ok 42

/-- A concrete unit of work that always raises a non-transient constraint
violation. -/
def fatalUow : Nat → Except DbError Nat :=
  fun _ => .error { name := "constraint violation", transient := false }

/-- A concrete unit of work that always fails with a transient deadlock. -/
def alwaysDeadlockUow : Nat → Except DbError Nat :=
  fun _ => .error { name := "deadlock", transient := true }

/-- A commit verdict under which every commit succeeds. -/
def noCommitErr : Nat → Option DbError := fun _ => none

/-- Concrete nodes and relationships for a sample two-segment path. -/
def nodeA : NodeT := { id := 1, labels := ["Person"], props := [] }

/-- Second node of the sample path. -/
def nodeB : NodeT := { id := 2, labels := ["Movie"], props := [] }

/-- Third node of the sample path. -/
def nodeC : NodeT := { id := 3, labels := ["Person"], props := [] }

/-- Relationship from nodeA to nodeB. -/
def relAB : RelT :=
  { id := 10, rtype := "ACTED_IN", start_node := 1, end_node := 2, props := [] }

/-- Relationship from nodeC to nodeB, traversed here against its
direction. -/
def relCB : RelT :=
  { id := 11, rtype := "ACTED_IN", start_node := 3, end_node := 2, props := [] }

/-- A concrete two-segment path nodeA -relAB-> nodeB <-relCB- nodeC. -/
def samplePath : GraphPath nodeA :=
  .step nodeA relAB (Or.inl ⟨rfl, rfl⟩)
    (.step nodeB relCB (Or.inr ⟨rfl, rfl⟩) (.point nodeC))

/-- C4: `single()` fails with ResultError on a zero-record stream and on a
stream of two or more records; on exactly one record it returns that
record. -/
theorem single_cardinality (s : Result) (hc : s.consumed = false) :
    (s.buffer = [] → s.single = .error .resultError) ∧
    (∀ r1 r2 rest, s.buffer = r1 :: r2 :: rest → s.single = .error .resultError) ∧
    (∀ r, s.buffer = [r] →
      s.single = .ok (r, { s with buffer := [], consumed := true })) := by
  refine ⟨fun h => ?_, fun r1 r2 rest h => ?_, fun r h => ?_⟩ <;>
    simp [Result.single, hc, h]

/-- C4 witness: `single()` on concrete zero-, two- and one-record
Results. -/
theorem single_cardinality_witness :
    emptyResult.single = .error .resultError ∧
    greenMileResult.single = .error .resultError ∧
    oneRecordResult.single =
      .ok (tomHanksRecord, { oneRecordResult with buffer := [], consumed := true }) := by
  refine ⟨(single_cardinality emptyResult rfl).1 rfl,
          (single_cardinality greenMileResult rfl).2.1 tomHanksRecord duncanRecord [] rfl,
          (single_cardinality oneRecordResult rfl).2.2 tomHanksRecord rfl⟩

/-- C6: `consume()` returns the summary (accurate counters) while discarding
every remaining record; afterwards peek, iteration, single, value and values
all fail with ResultConsumedError, so iteration yields no records. -/
theorem consume_discards_and_blocks (s : Result) :
    (s.consume).1 = s.summary ∧
    ((s.consume).2).buffer = [] ∧
    ((s.consume).2).consumed = true ∧
    ((s.consume).2).peek = .error .resultConsumedError ∧
    ((s.consume).2).iterate = .error .resultConsumedError ∧
    ((s.consume).2).single = .error .resultConsumedError ∧
    (∀ k d, ((s.consume).2).value k d = .error .resultConsumedError) ∧
    (∀ ks, ((s.consume).2).values ks = .error .resultConsumedError) := by
  simp [Result.consume, Result.peek, Result.iterate, Result.single,
        Result.value, Result.values]

/-- C7: on a Result with at least one unread record, peek returns the first
record and leaves the state unchanged; a repeated peek returns the identical
record; and peek never changes the state of any Result. -/
theorem peek_repeatable (s : Result) (r : Record) (rest : List Record)
    (hc : s.consumed = false) (hb : s.buffer = r :: rest) :
    s.peek = .ok (some r, s) ∧
    (∀ s2, s.peek = .ok (some r, s2) → s2.peek = .ok (some r, s2)) ∧
    (∀ (u u2 : Result) (x : Option Record), u.peek = .ok (x, u2) → u2 = u) := by
  have h1 : s.peek = .ok (some r, s) := by simp [Result.peek, hc, hb]
  refine ⟨h1, ?_, ?_⟩
  · intro s2 h2
    rw [h1] at h2
    obtain ⟨-, rfl⟩ : some r = some r ∧ s = s2 := by
      simpa using h2
    exact h1
  · intro u u2 x h
    by_cases hcon : u.consumed <;> simp [Result.peek, hcon] at h
    exact h.2.symm

/-- C7 witness: two successive peeks on a concrete one-record Result. -/
theorem peek_repeatable_witness :
    oneRecordResult.peek = .ok (some tomHanksRecord, oneRecordResult) := by
  exact (peek_repeatable oneRecordResult tomHanksRecord [] rfl rfl).1

/-- C3: once `commit()` succeeds the Transaction is terminal: `run` fails
with TransactionClosedError, and committing or rolling back again fails with
TransactionClosedError while leaving the state unchanged (so the state stays
terminal forever). -/
theorem commit_success_is_terminal (t : Transaction) (h : t.state = .opened) :
    (t.commit none).2 = none ∧
    ((t.commit none).1).state = .committed ∧
    (((t.commit none).1).state).isTerminal = true ∧
    (∀ ks recs summ,
      ((t.commit none).1).run ks recs summ = .error .transactionClosedError) ∧
    (∀ se, (((t.commit none).1).commit se).2 = some .transactionClosedError ∧
           (((t.commit none).1).commit se).1 = (t.commit none).1) ∧
    ((((t.commit none).1).rollback).2 = some .transactionClosedError ∧
     (((t.commit none).1).rollback).1 = (t.commit none).1) := by
  obtain ⟨st⟩ := t
  cases st <;>
    simp_all [Transaction.commit, Transaction.run, Transaction.rollback,
              TxState.isTerminal]

/-- C3 witness: a concrete open Transaction is committed and all subsequent
operations fail with TransactionClosedError. -/
theorem commit_success_is_terminal_witness :
    ((Transaction.mk .opened).commit none).2 = none ∧
    (((Transaction.mk .opened).commit none).1).state = .committed ∧
    (((Transaction.mk .opened).commit none).1).run ["p"] [tomHanksRecord]
      emptySummary = .error .transactionClosedError ∧
    ((((Transaction.mk .opened).commit none).1).commit none).2 =
      some .transactionClosedError ∧
    ((((Transaction.mk .opened).commit none).1).rollback).2 =
      some .transactionClosedError := by
  obtain ⟨h1, h2, _, h4, h5, h6⟩ :=
    commit_success_is_terminal (Transaction.mk .opened) rfl
  exact ⟨h1, h2, h4 ["p"] [tomHanksRecord] emptySummary, (h5 none).1, h6.1⟩

/-- Helper: an attempt whose unit of work fails rolls its Transaction back
and reports the failure. -/
theorem attemptTx_uow_err {α : Type} (uow : Nat → Except DbError α)
    (commitErr : Nat → Option DbError) (k : Nat) (e : DbError)
    (h : uow k = .error e) :
    attemptTx uow commitErr k = (.rolledBack, .error e) := by
  simp [attemptTx, h, Transaction.rollback]

/-- Helper: an attempt whose unit of work succeeds and whose commit succeeds
commits its Transaction and reports the value. -/
theorem attemptTx_commit_ok {α : Type} (uow : Nat → Except DbError α)
    (commitErr : Nat → Option DbError) (k : Nat) (v : α)
    (h : uow k = .ok v) (hc : commitErr k = none) :
    attemptTx uow commitErr k = (.committed, .ok v) := by
  simp [attemptTx, h, hc, Transaction.commit]

/-- Helper: a successful attempt ends the managed run with the value and the
attempt count. -/
theorem managedRun_ok {α : Type} (uow : Nat → Except DbError α)
    (commitErr : Nat → Option DbError) (fuel k : Nat) (st : TxState) (v : α)
    (ha : attemptTx uow commitErr k = (st, .ok v)) :
    managedRun uow commitErr fuel k = ([st], .ok v (k + 1)) := by
  rw [managedRun.eq_def, ha]

/-- Helper: a non-transient failure ends the managed run immediately,
re-raising the failure. -/
theorem managedRun_fatal {α : Type} (uow : Nat → Except DbError α)
    (commitErr : Nat → Option DbError) (fuel k : Nat) (st : TxState)
    (e : DbError) (ha : attemptTx uow commitErr k = (st, .error e))
    (hf : e.transient = false) :
    managedRun uow commitErr fuel k = ([st], .raised e (k + 1)) := by
  cases fuel <;> rw [managedRun.eq_def, ha] <;> simp [hf]

/-- Helper: a transient failure with no retry budget left yields
RetryExhaustedError. -/
theorem managedRun_exhaust {α : Type} (uow : Nat → Except DbError α)
    (commitErr : Nat → Option DbError) (k : Nat) (st : TxState)
    (e : DbError) (ha : attemptTx uow commitErr k = (st, .error e))
    (ht : e.transient = true) :
    managedRun uow commitErr 0 k = ([st], .retryExhausted e (k + 1)) := by
  rw [managedRun.eq_def, ha]; simp [ht]

/-- Helper: a transient failure with budget remaining retries at the next
attempt index. -/
theorem managedRun_retry {α : Type} (uow : Nat → Except DbError α)
    (commitErr : Nat → Option DbError) (fuel k : Nat) (st : TxState)
    (e : DbError) (ha : attemptTx uow commitErr k = (st, .error e))
    (ht : e.transient = true) :
    managedRun uow commitErr (fuel + 1) k =
      (st :: (managedRun uow commitErr fuel (k + 1)).1,
       (managedRun uow commitErr fuel (k + 1)).2) := by
  rw [managedRun.eq_def, ha]; simp [ht]

/-- C1: a unit of work failing with a transient error on its first two
invocations and succeeding on the third makes execute_write return the third
invocation's value with exactly 3 attempts (each failed attempt's
Transaction rolled back, the last committed). -/
theorem execute_write_transient_then_success {α : Type} (budget : Nat)
    (uow : Nat → Except DbError α) (commitErr : Nat → Option DbError)
    (e0 e1 : DbError) (v : α)
    (h0 : uow 0 = .error e0) (ht0 : e0.transient = true)
    (h1 : uow 1 = .error e1) (ht1 : e1.transient = true)
    (h2 : uow 2 = .ok v) (hc : commitErr 2 = none)
    (hb : 2 ≤ budget) :
    execute_write budget uow commitErr =
      ([.rolledBack, .rolledBack, .committed], .ok v 3) := by
  obtain ⟨m, rfl⟩ := Nat.exists_eq_add_of_le' hb
  show managedRun uow commitErr (m + 2) 0 = _
  rw [managedRun_retry uow commitErr (m + 1) 0 _ _
        (attemptTx_uow_err uow commitErr 0 e0 h0) ht0,
      managedRun_retry uow commitErr m 1 _ _
        (attemptTx_uow_err uow commitErr 1 e1 h1) ht1,
      managedRun_ok uow commitErr m 2 _ v
        (attemptTx_commit_ok uow commitErr 2 v h2 hc)]

/-- C1 witness: a concrete twice-deadlocking unit of work under a budget of
2 retries. -/
theorem execute_write_transient_then_success_witness :
    execute_write 2 flakyUow noCommitErr =
      ([.rolledBack, .rolledBack, .committed], .ok 42 3) := by
  exact execute_write_transient_then_success 2 flakyUow noCommitErr
    { name := "deadlock", transient := true }
    { name := "deadlock", transient := true } 42
    rfl rfl rfl rfl rfl rfl (by decide)

/-- C2: a unit of work raising a non-transient error makes execute_write
perform exactly one attempt, roll its (still open) Transaction back, and
re-raise that same error unchanged. -/
theorem execute_write_nontransient_once {α : Type} (budget : Nat)
    (uow : Nat → Except DbError α) (commitErr : Nat → Option DbError)
    (e : DbError) (h0 : uow 0 = .error e) (hf : e.transient = false) :
    execute_write budget uow commitErr = ([.rolledBack], .raised e 1) := by
  show managedRun uow commitErr budget 0 = _
  exact managedRun_fatal uow commitErr budget 0 _ e
    (attemptTx_uow_err uow commitErr 0 e h0) hf

/-- C2 witness: a concrete constraint-violating unit of work under a budget
of 5 retries. -/
theorem execute_write_nontransient_once_witness :
    execute_write 5 fatalUow noCommitErr =
      ([.rolledBack],
       .raised { name := "constraint violation", transient := false } 1) := by
  exact execute_write_nontransient_once 5 fatalUow noCommitErr
    { name := "constraint violation", transient := false } rfl rfl

/-- Helper: a unit of work that fails with a transient error on every
invocation exhausts the whole budget: every attempt's Transaction is rolled
back and the run ends in RetryExhaustedError wrapping the last failure, with
the attempt count equal to budget + 1. -/
theorem managedRun_always_transient {α : Type} (uow : Nat → Except DbError α)
    (commitErr : Nat → Option DbError) (errf : Nat → DbError)
    (herr : ∀ k, uow k = .error (errf k))
    (htr : ∀ k, (errf k).transient = true) :
    ∀ fuel k, managedRun uow commitErr fuel k =
      (List.replicate (fuel + 1) TxState.rolledBack,
       .retryExhausted (errf (k + fuel)) (k + fuel + 1)) := by
  intro fuel
  induction fuel with
  | zero =>
    intro k
    rw [managedRun_exhaust uow commitErr k _ _
          (attemptTx_uow_err uow commitErr k (errf k) (herr k)) (htr k)]
    simp
  | succ fuel ih =>
    intro k
    rw [managedRun_retry uow commitErr fuel k _ _
          (attemptTx_uow_err uow commitErr k (errf k) (herr k)) (htr k),
        ih (k + 1)]
    have harith : k + 1 + fuel = k + (fuel + 1) := by omega
    simp [harith, List.replicate_succ]

/-- C5: a unit of work that keeps failing with transient errors past the
retry budget makes both execute_read and execute_write raise
RetryExhaustedError wrapping the last underlying failure and reporting the
number of attempts made (budget + 1). -/
theorem retry_budget_exhausted {α : Type} (budget : Nat)
    (uow : Nat → Except DbError α) (commitErr : Nat → Option DbError)
    (errf : Nat → DbError)
    (herr : ∀ k, uow k = .error (errf k))
    (htr : ∀ k, (errf k).transient = true) :
    execute_read budget uow commitErr =
      (List.replicate (budget + 1) TxState.rolledBack,
       .retryExhausted (errf budget) (budget + 1)) ∧
    execute_write budget uow commitErr =
      (List.replicate (budget + 1) TxState.rolledBack,
       .retryExhausted (errf budget) (budget + 1)) := by
  have h := managedRun_always_transient uow commitErr errf herr htr budget 0
  simp only [Nat.zero_add] at h
  exact ⟨h, h⟩

/-- C5 witness: a concrete always-deadlocking unit of work under a budget of
2 retries makes 3 attempts and raises RetryExhaustedError. -/
theorem retry_budget_exhausted_witness :
    execute_read 2 alwaysDeadlockUow noCommitErr =
      ([.rolledBack, .rolledBack, .rolledBack],
       .retryExhausted { name := "deadlock", transient := true } 3) := by
  exact (retry_budget_exhausted 2 alwaysDeadlockUow noCommitErr
    (fun _ => { name := "deadlock", transient := true })
    (fun _ => rfl) (fun _ => rfl)).1

/-- Helper: the first node of a path's node sequence is its start node. -/
theorem GraphPath.nodes_head {a : NodeT} (p : GraphPath a) :
    p.nodes.getD 0 defNode = a := by
  cases p <;> rfl

/-- C8: for every path, its length equals its relationship count, the node
sequence has one more element, and for every i-th relationship one of its
endpoints equals node i and the other equals node i+1. -/
theorem path_length_and_adjacency {a : NodeT} (p : GraphPath a) :
    p.length = p.relationships.length ∧
    p.nodes.length = p.length + 1 ∧
    ∀ i, i < p.length →
      relConnects (p.relationships.getD i defRel)
        (p.nodes.getD i defNode) (p.nodes.getD (i + 1) defNode) := by
  refine ⟨rfl, ?_, ?_⟩
  · induction p with
    | point n => rfl
    | step a r h rest ih =>
      simp [GraphPath.nodes, GraphPath.length, GraphPath.relationships] at ih ⊢
      omega
  · induction p with
    | point n =>
      intro i hi
      simp [GraphPath.length, GraphPath.relationships] at hi
    | step a r h rest ih =>
      intro i hi
      cases i with
      | zero =>
        show relConnects ((r :: rest.relationships).getD 0 defRel)
          ((a :: rest.nodes).getD 0 defNode) ((a :: rest.nodes).getD 1 defNode)
        rw [List.getD_cons_zero, List.getD_cons_zero, List.getD_cons_succ,
            GraphPath.nodes_head rest]
        exact h
      | succ j =>
        have hj : j < rest.length := by
          simpa [GraphPath.length, GraphPath.relationships] using hi
        show relConnects ((r :: rest.relationships).getD (j + 1) defRel)
          ((a :: rest.nodes).getD (j + 1) defNode)
          ((a :: rest.nodes).getD (j + 2) defNode)
        rw [List.getD_cons_succ, List.getD_cons_succ, List.getD_cons_succ]
        exact ih j hj

/-- C8 witness: adjacency of both segments of the concrete two-segment
sample path. -/
theorem path_length_and_adjacency_witness :
    relConnects (samplePath.relationships.getD 0 defRel)
      (samplePath.nodes.getD 0 defNode) (samplePath.nodes.getD 1 defNode) ∧
    relConnects (samplePath.relationships.getD 1 defRel)
      (samplePath.nodes.getD 1 defNode) (samplePath.nodes.getD 2 defNode) := by
  obtain ⟨-, -, hadj⟩ := path_length_and_adjacency samplePath
  exact ⟨hadj 0 (by decide), hadj 1 (by decide)⟩

/-- C9: the later definition of get_actors_values shadows the earlier one:
every call executes `result.values("name", "title", "roles")`, and on a
concrete one-record Result the two shadowed definitions disagree, so they
are not behaviorally equivalent. -/
theorem get_actors_values_shadowed :
    (∀ s : Result, get_actors_values s = get_actors_values_second s) ∧
    get_actors_values sampleActorsResult =
      .ok ([Value.list [Value.str "Tom Hanks", Value.str "The Green Mile",
                        Value.list [Value.str "Paul Edgecomb"]]],
           { sampleActorsResult with buffer := [], consumed := true }) ∧
    get_actors_values_first sampleActorsResult =
      .ok ([Value.str "Tom Hanks"],
           { sampleActorsResult with buffer := [], consumed := true }) ∧
    get_actors_values sampleActorsResult ≠
      get_actors_values_first sampleActorsResult := by
  refine ⟨fun s => rfl, rfl, rfl, ?_⟩
  intro hcontra
  simp [get_actors_values, get_actors_values_second, get_actors_values_first,
        Result.values, Result.value, sampleActorsResult, Record.getD,
        Record.get] at hcontra

/-- An empty Record used only as the out-of-range value of `List.getD`. -/
def defRecord : Record := []

/-- C10: get_actors returns a fully materialized list (not a live stream):
the "p" value of every record of the Result, in order; its length is the
record count and its i-th element is the "p" value extracted from the i-th
Record. -/
theorem get_actors_materializes (s : Result) (hc : s.consumed = false) :
    get_actors s = .ok (s.buffer.map (fun r => r.getD "p" Value.null),
                        { s with buffer := [], consumed := true }) ∧
    (∀ (l : List Value) (s2 : Result), get_actors s = .ok (l, s2) →
      l.length = s.buffer.length ∧
      ∀ i, i < l.length →
        l.getD i Value.null = (s.buffer.getD i defRecord).getD "p" Value.null) := by
  have h1 : get_actors s = .ok (s.buffer.map (fun r => r.getD "p" Value.null),
      { s with buffer := [], consumed := true }) := by
    simp [get_actors, Result.iterate, hc]
  refine ⟨h1, ?_⟩
  intro l s2 h2
  rw [h1] at h2
  obtain ⟨hl, -⟩ : s.buffer.map (fun r => r.getD "p" Value.null) = l ∧
      ({ s with buffer := [], consumed := true } : Result) = s2 := by
    simpa using h2
  subst hl
  refine ⟨List.length_map s.buffer _, ?_⟩
  intro i hi
  rw [List.length_map] at hi
  rw [List.getD_eq_getElem _ _ (by simpa using hi),
      List.getD_eq_getElem _ _ hi, List.getElem_map]

/-- C10 witness: get_actors on a concrete two-record Result returns the two
"p" values as a plain list. -/
theorem get_actors_materializes_witness :
    get_actors greenMileResult =
      .ok ([Value.str "Tom Hanks", Value.str "Michael Clarke Duncan"],
           { greenMileResult with buffer := [], consumed := true }) := by
  exact (get_actors_materializes greenMileResult rfl).1
